import Mathlib

/-!
Shallow embedding of the Snitch-Audio core: the audio utilities
(`extractAudioPeaks`, `audioBufferToWav`) and the media comparator's
playback controller (`syncLoop`, `handleGlobalPlayPause`, `handleToggle1`,
`handleToggle2`, `handleSeek`), together with theorems checking the
specification's claims against the embedded code.

Numbers: JavaScript floats are embedded as exact rationals (`ℚ`); byte
buffers as `List ℕ` with each entry in `[0, 256)`.
-/

namespace SnitchAudio

/-- Model of a decoded Web Audio `AudioBuffer`: sample rate in Hz, frame
count (the `length` property), and the per-channel sample lists
(`getChannelData i` returns `channels[i]`).  `numberOfChannels` is the
number of channel arrays. -/
structure AudioBuffer where
  sampleRate : ℕ
  length : ℕ
  channels : List (List ℚ)
deriving DecidableEq

/-- `buffer.duration` is frame count over sample rate, in seconds. -/
def AudioBuffer.duration (b : AudioBuffer) : ℚ := (b.length : ℚ) / (b.sampleRate : ℚ)

/-- `buffer.numberOfChannels`. -/
def AudioBuffer.numberOfChannels (b : AudioBuffer) : ℕ := b.channels.length

/-- `buffer.getChannelData i` (out-of-range channel index yields an empty
channel; never exercised by the embedded code's call sites). -/
def AudioBuffer.getChannelData (b : AudioBuffer) (i : ℕ) : List ℚ := b.channels.getD i []

/-! ### WavEncoder (`audioBufferToWav` in src/unnamed/part_000) -/

/-- Little-endian bytes of `DataView.setUint16 _ n true`. -/
def u16le (n : ℕ) : List ℕ := [n % 256, n / 256 % 256]

/-- Little-endian bytes of `DataView.setUint32 _ n true`. -/
def u32le (n : ℕ) : List ℕ := [n % 256, n / 256 % 256, n / 65536 % 256, n / 16777216 % 256]

/-- Little-endian bytes of `DataView.setInt16 _ s true`: two's complement
of the (already int16-ranged) value. -/
def i16le (s : ℤ) : List ℕ := u16le (s % 65536).toNat

/-- `Math.floor` on an exact rational: `⌊q⌋`, written on the numerator and
denominator so that it evaluates by kernel reduction (the denominator is
positive, so integer `ediv` is the floor). -/
def ratFloor (q : ℚ) : ℤ := q.num / (q.den : ℤ)

/-- `Math.ceil` on an exact rational: `⌈q⌉ = -⌊-q⌋`. -/
def ratCeil (q : ℚ) : ℤ := -ratFloor (-q)

/-- JavaScript `x | 0` on a value in int32 range: truncation toward zero
(`Int.tdiv` of numerator by denominator).  All values it is applied to
here lie in `[-32768, 32767]`. -/
def ratTrunc (q : ℚ) : ℤ := q.num.tdiv (q.den : ℤ)

/-- `Math.max(-1, Math.min(1, x))` — the clamp of the encoder's data loop. -/
def clampSample (x : ℚ) : ℚ := max (-1) (min 1 x)

/-- One sample of the encoder's data loop:
`sample = (0.5 + sample < 0 ? sample * 32768 : sample * 32767) | 0`
applied to the clamped sample.  Note the source's branch condition is
`0.5 + sample < 0`, i.e. `sample < -0.5`. -/
def encodeSample (x : ℚ) : ℤ :=
  ratTrunc (if 1/2 + clampSample x < 0 then clampSample x * 32768 else clampSample x * 32767)

/-- The 44 header bytes written by `audioBufferToWav` before the data
loop, in write order (every `setUint16`/`setUint32` write lands at the
current cursor, so the byte stream is the concatenation of the writes).
At the final `setUint32(length - pos - 4)` the cursor `pos` is 40. -/
def wavHeader (b : AudioBuffer) : List ℕ :=
  let numOfChan := b.numberOfChannels
  let length := b.length * numOfChan * 2 + 44
  u32le 0x46464952 ++         -- "RIFF"
  u32le (length - 8) ++       -- file length - 8
  u32le 0x45564157 ++         -- "WAVE"
  u32le 0x20746d66 ++         -- "fmt " chunk
  u32le 16 ++                 -- length = 16
  u16le 1 ++                  -- PCM (uncompressed)
  u16le numOfChan ++
  u32le b.sampleRate ++
  u32le (b.sampleRate * 2 * numOfChan) ++  -- avg. bytes/sec
  u16le (numOfChan * 2) ++    -- block-align
  u16le 16 ++                 -- 16-bit
  u32le 0x61746164 ++         -- "data" chunk
  u32le (length - 40 - 4)     -- chunk length (cursor pos = 40 here)

/-- The bytes the data loop actually writes.  The source reuses the
function-scoped header cursor as its frame index: after the header
writes, `pos = 44`, and the loop is `while (pos < buffer.length)`
reading `channels[i][pos]` and writing the encoded sample at
`44 + offset`, with `offset` starting at 0.  So the frames encoded are
`pos = 44, …, length - 1` (none at all when `length ≤ 44`), interleaved
across channels, written at the front of the data region.  (A missing
sample reads as byte value 0, as in the source where `NaN | 0` is
`0`.) -/
def wavDataWritten (b : AudioBuffer) : List ℕ :=
  (List.range' 44 (b.length - 44)).flatMap fun pos =>
    (List.range b.numberOfChannels).flatMap fun i =>
      i16le (encodeSample ((b.getChannelData i).getD pos 0))

/-- The data region of the output: the allocation past the header is
`length * numOfChan * 2` bytes; the loop's writes fill its front and the
rest keeps the `ArrayBuffer`'s zero initialization. -/
def wavData (b : AudioBuffer) : List ℕ :=
  wavDataWritten b ++
    List.replicate (b.length * b.numberOfChannels * 2 - (wavDataWritten b).length) 0

/-- `audioBufferToWav`: the full WAV byte stream, header then data. -/
def audioBufferToWav (b : AudioBuffer) : List ℕ := wavHeader b ++ wavData b

/-- The sample-scaling rule as the specification words it ("negative
values scaled by 32768, non-negative by 32767"), for comparison with the
source's `encodeSample`. -/
def specScaleSample (x : ℚ) : ℤ :=
  ratTrunc (if clampSample x < 0 then clampSample x * 32768 else clampSample x * 32767)

/-- The data chunk as the specification describes it: all frames
`0, …, length - 1` interleaved in channel-index order, for comparison
with the source's `wavData`. -/
def specWavData (b : AudioBuffer) : List ℕ :=
  (List.range b.length).flatMap fun pos =>
    (List.range b.numberOfChannels).flatMap fun i =>
      i16le (encodeSample ((b.getChannelData i).getD pos 0))

/-! ### PeakExtractor (`extractAudioPeaks` in src/unnamed/part_000) -/

/-- One element of the `points` series. -/
structure AudioDataPoint where
  time : ℚ
  original : ℚ
  isolated : ℚ
deriving DecidableEq

/-- A peak region.  The field `stop` models the source's `end` field
(`end` is a reserved word in Lean). -/
structure PeakRegion where
  start : ℚ
  stop : ℚ
  amplitude : ℚ
deriving DecidableEq

/-- The result record of `extractAudioPeaks`. -/
structure ExtractResult where
  points : List AudioDataPoint
  originalPeakRegion : Option PeakRegion
  isolatedPeakRegion : Option PeakRegion
deriving DecidableEq

/-- The sampling loop of `getPeak`:
`for (let i = startSample; i < endSample && i < channelData.length; i += stride)`
taking the running maximum of `Math.abs(channelData[i])`.  `lookup`
models indexing into `channelData` and `len` its length.  `fuel` bounds
the number of iterations; every call site passes
`(min endSample len - i).toNat + 1`, which is enough since on every
actual call `stride ≥ 1`, so the loop below never exhausts it before the
loop condition fails. -/
def peakScan (lookup : ℤ → ℚ) (len endSample stride : ℤ) : ℕ → ℤ → ℚ → ℚ
  | 0, _, m => m
  | fuel + 1, i, m =>
    if i < endSample ∧ i < len then
      peakScan lookup len endSample stride fuel (i + stride) (max m |lookup i|)
    else m

/-- `getPeak buffer startTime windowSize` — peak absolute amplitude of the
first channel over the window, sub-sampled with the adaptive stride
`Math.ceil((endSample - startSample) / 1000) || 1`. -/
def getPeak (buffer : AudioBuffer) (startTime windowSize : ℚ) : ℚ :=
  let sampleRate : ℚ := (buffer.sampleRate : ℚ)
  let startSample : ℤ := ratFloor (startTime * sampleRate)
  let endSample : ℤ := ratFloor ((startTime + windowSize) * sampleRate)
  let channelData : List ℚ := buffer.getChannelData 0
  let c : ℤ := ratCeil (((endSample - startSample : ℤ) : ℚ) / 1000)
  let stride : ℤ := if c = 0 then 1 else c
  peakScan (fun i => if 0 ≤ i then channelData.getD i.toNat 0 else 0)
    (channelData.length : ℤ) endSample stride
    ((min endSample (channelData.length : ℤ) - startSample).toNat + 1) startSample 0

/-- `Math.max(buffer1?.duration || 0, buffer2?.duration || 0)`. -/
def extractDuration (buffer1 buffer2 : Option AudioBuffer) : ℚ :=
  max (match buffer1 with | some b => b.duration | none => 0)
      (match buffer2 with | some b => b.duration | none => 0)

/-- The mutable locals of the extraction loop: the `data` array and the
running maxima with their time slots. -/
structure ExtractAcc where
  data : List AudioDataPoint
  maxOriginalAmplitude : ℚ
  maxOriginalTime : ℚ
  maxIsolatedAmplitude : ℚ
  maxIsolatedTime : ℚ

/-- The point pushed at loop index `i`: `time = i * step`, the per-buffer
window peaks (0 for an absent buffer). -/
def extractPoint (buffer1 buffer2 : Option AudioBuffer) (step : ℚ) (i : ℕ) : AudioDataPoint :=
  let time : ℚ := (i : ℚ) * step
  { time := time
    original := match buffer1 with | some b => getPeak b time step | none => 0
    isolated := match buffer2 with | some b => getPeak b time step | none => 0 }

/-- One iteration of the extraction loop: update the running maxima and
push the point. -/
def extractStep (buffer1 buffer2 : Option AudioBuffer) (step : ℚ)
    (acc : ExtractAcc) (i : ℕ) : ExtractAcc :=
  let p := extractPoint buffer1 buffer2 step i
  { data := acc.data ++ [p]
    maxOriginalAmplitude :=
      if p.original > acc.maxOriginalAmplitude then p.original else acc.maxOriginalAmplitude
    maxOriginalTime :=
      if p.original > acc.maxOriginalAmplitude then p.time else acc.maxOriginalTime
    maxIsolatedAmplitude :=
      if p.isolated > acc.maxIsolatedAmplitude then p.isolated else acc.maxIsolatedAmplitude
    maxIsolatedTime :=
      if p.isolated > acc.maxIsolatedAmplitude then p.time else acc.maxIsolatedTime }

/-- The extraction loop, folded over `i = 0, …, samples - 1` from the
all-zero initial locals, with `step = duration / samples`. -/
def extractLoopAcc (buffer1 buffer2 : Option AudioBuffer) (samples : ℕ) : ExtractAcc :=
  (List.range samples).foldl
    (extractStep buffer1 buffer2 (extractDuration buffer1 buffer2 / (samples : ℚ)))
    { data := [], maxOriginalAmplitude := 0, maxOriginalTime := 0,
      maxIsolatedAmplitude := 0, maxIsolatedTime := 0 }

/-- `extractAudioPeaks buffer1 buffer2 samples`.  (With `samples = 0` the
source's `step` is `Infinity`; it is never read in that case — the loop
body does not run — so the value of `step` is immaterial there.) -/
def extractAudioPeaks (buffer1 buffer2 : Option AudioBuffer) (samples : ℕ) : ExtractResult :=
  let duration := extractDuration buffer1 buffer2
  if duration = 0 then { points := [], originalPeakRegion := none, isolatedPeakRegion := none }
  else
    let acc := extractLoopAcc buffer1 buffer2 samples
    let regionWindow : ℚ := min (duration * (1/10)) 5
    { points := acc.data
      originalPeakRegion := buffer1.map fun _ =>
        { start := max 0 (acc.maxOriginalTime - regionWindow / 2)
          stop := min duration (acc.maxOriginalTime + regionWindow / 2)
          amplitude := acc.maxOriginalAmplitude }
      isolatedPeakRegion := buffer2.map fun _ =>
        { start := max 0 (acc.maxIsolatedTime - regionWindow / 2)
          stop := min duration (acc.maxIsolatedTime + regionWindow / 2)
          amplitude := acc.maxIsolatedAmplitude } }

/-- The invariant guaranteed by the Web Audio API for every decoded
buffer: a positive sample rate, and every channel array has `length`
(the frame count) entries. -/
def AudioBuffer.wf (b : AudioBuffer) : Prop :=
  0 < b.sampleRate ∧ ∀ ch ∈ b.channels, ch.length = b.length

/-! ### PlaybackController / SyncScheduler (src/unnamed/part_001) -/

/-- A media transport (an `HTMLMediaElement`): its position and paused
flag. -/
structure Transport where
  currentTime : ℚ
  paused : Bool
deriving DecidableEq

/-- `el.play()`. -/
def Transport.play (t : Transport) : Transport := { t with paused := false }

/-- `el.pause()`. -/
def Transport.pause (t : Transport) : Transport := { t with paused := true }

/-- `el.currentTime = time`. -/
def Transport.seekTo (t : Transport) (time : ℚ) : Transport := { t with currentTime := time }

/-- The comparator's state: the three transport refs (`none` = not yet
attached), the link toggle and the two playing flags of the component. -/
structure MediaState where
  videoOriginal : Option Transport
  videoMuted : Option Transport
  audioIsolated : Option Transport
  isSynced : Bool
  isPlaying1 : Bool
  isPlaying2 : Bool
deriving DecidableEq

/-- Optional-chaining `ref.current?.play()`. -/
def playOpt : Option Transport → Option Transport := Option.map Transport.play

/-- Optional-chaining `ref.current?.pause()`. -/
def pauseOpt : Option Transport → Option Transport := Option.map Transport.pause

/-- `setIsSynced` (the Linked/Unlinked toggle). -/
def setIsSynced (v : Bool) (s : MediaState) : MediaState := { s with isSynced := v }

/-- One tick of `syncLoop` (its transport effects; the display-time
updates and the animation-frame re-arming are outside the model).
Tolerance is `0.15` seconds. -/
def syncLoop (s : MediaState) : MediaState :=
  match s.videoOriginal, s.videoMuted, s.audioIsolated with
  | some v1, some v2, some a1 =>
    if s.isSynced && !v1.paused then
      let tolerance : ℚ := 15/100
      let v2' := if tolerance < |v2.currentTime - v1.currentTime|
                 then v2.seekTo v1.currentTime else v2
      let a1' := if tolerance < |a1.currentTime - v1.currentTime|
                 then a1.seekTo v1.currentTime else a1
      { s with videoMuted := some v2', audioIsolated := some a1' }
    else s
  | _, _, _ => s

/-- `handleGlobalPlayPause`. -/
def handleGlobalPlayPause (s : MediaState) : MediaState :=
  match s.videoOriginal, s.videoMuted, s.audioIsolated with
  | some v1, some v2, some a1 =>
    if s.isPlaying1 then
      { s with videoOriginal := some v1.pause, videoMuted := some v2.pause,
               audioIsolated := some a1.pause, isPlaying1 := false, isPlaying2 := false }
    else
      let v2' := if s.isSynced then v2.seekTo v1.currentTime else v2
      let a1' := if s.isSynced then a1.seekTo v1.currentTime else a1
      { s with videoOriginal := some v1.play, videoMuted := some v2'.play,
               audioIsolated := some a1'.play, isPlaying1 := true, isPlaying2 := true }
  | _, _, _ => s

/-- `handleToggle1` (toggles the original video; fans out only when
Linked, with optional chaining on the follower refs). -/
def handleToggle1 (s : MediaState) : MediaState :=
  match s.videoOriginal with
  | none => s
  | some v1 =>
    if v1.paused then
      if s.isSynced then
        { s with videoOriginal := some v1.play, isPlaying1 := true,
                 videoMuted := playOpt s.videoMuted,
                 audioIsolated := playOpt s.audioIsolated, isPlaying2 := true }
      else
        { s with videoOriginal := some v1.play, isPlaying1 := true }
    else
      if s.isSynced then
        { s with videoOriginal := some v1.pause, isPlaying1 := false,
                 videoMuted := pauseOpt s.videoMuted,
                 audioIsolated := pauseOpt s.audioIsolated, isPlaying2 := false }
      else
        { s with videoOriginal := some v1.pause, isPlaying1 := false }

/-- `handleToggle2` (toggles the muted video and the isolated audio as a
pair; fans out to the original video only when Linked). -/
def handleToggle2 (s : MediaState) : MediaState :=
  match s.videoMuted, s.audioIsolated with
  | some v2, some a1 =>
    if v2.paused then
      if s.isSynced then
        { s with videoMuted := some v2.play, audioIsolated := some a1.play,
                 isPlaying2 := true, videoOriginal := playOpt s.videoOriginal,
                 isPlaying1 := true }
      else
        { s with videoMuted := some v2.play, audioIsolated := some a1.play,
                 isPlaying2 := true }
    else
      if s.isSynced then
        { s with videoMuted := some v2.pause, audioIsolated := some a1.pause,
                 isPlaying2 := false, videoOriginal := pauseOpt s.videoOriginal,
                 isPlaying1 := false }
      else
        { s with videoMuted := some v2.pause, audioIsolated := some a1.pause,
                 isPlaying2 := false }
  | _, _ => s

/-- `handleSeek time`: seek the original video if attached; then the
source's two branches (`isSynced && v2 && a1` and `!isSynced && v2 && a1`)
both seek both followers, so the follower seek happens exactly when both
followers are attached. -/
def handleSeek (time : ℚ) (s : MediaState) : MediaState :=
  let s1 := match s.videoOriginal with
    | some v1 => { s with videoOriginal := some (v1.seekTo time) }
    | none => s
  match s1.videoMuted, s1.audioIsolated with
  | some v2, some a1 =>
    if s1.isSynced then
      { s1 with videoMuted := some (v2.seekTo time), audioIsolated := some (a1.seekTo time) }
    else
      { s1 with videoMuted := some (v2.seekTo time), audioIsolated := some (a1.seekTo time) }
  | _, _ => s1

/-! ### Concrete inputs used by witnesses and counterexamples -/

/-- A 10-second buffer (sample rate 1 Hz, 10 frames). -/
def demoBuf10 : AudioBuffer := { sampleRate := 1, length := 10, channels := [[]] }

/-- An 8-second buffer (sample rate 1 Hz, 8 frames). -/
def demoBuf8 : AudioBuffer := { sampleRate := 1, length := 8, channels := [[]] }

/-- A well-formed 2-second buffer (sample rate 1 Hz, 2 frames, one
channel with 2 samples). -/
def demoBufWf : AudioBuffer := { sampleRate := 1, length := 2, channels := [[0, 1/2]] }

/-- A 45-frame mono buffer whose frame 44 — the first frame the
encoder's data loop actually reads — holds the sample `x`. -/
def padBuf (x : ℚ) : AudioBuffer :=
  { sampleRate := 8000, length := 45, channels := [List.replicate 44 0 ++ [x]] }

/-- All three transports attached and paused at 0, Linked, flags clear. -/
def demoAllPaused : MediaState :=
  { videoOriginal := some { currentTime := 0, paused := true },
    videoMuted := some { currentTime := 0, paused := true },
    audioIsolated := some { currentTime := 0, paused := true },
    isSynced := true, isPlaying1 := false, isPlaying2 := false }

/-- Reachable state: unlink, then toggle the muted-video/isolated-audio
pair.  The followers play while the original video stays paused and
`isPlaying1` is false. -/
def demoFollowersPlaying : MediaState := handleToggle2 (setIsSynced false demoAllPaused)

/-- Linked, everything paused, followers drifted to position 10 while the
leader sits at 0. -/
def demoDrifted : MediaState :=
  { videoOriginal := some { currentTime := 0, paused := true },
    videoMuted := some { currentTime := 10, paused := true },
    audioIsolated := some { currentTime := 10, paused := true },
    isSynced := true, isPlaying1 := false, isPlaying2 := false }

/-- Unlinked, all paused, the followers at distinct positions 5 and 7. -/
def demoUnlinked : MediaState :=
  { videoOriginal := some { currentTime := 0, paused := true },
    videoMuted := some { currentTime := 5, paused := true },
    audioIsolated := some { currentTime := 7, paused := true },
    isSynced := false, isPlaying1 := false, isPlaying2 := false }

/-- Leader transport not yet attached; both followers attached at 5. -/
def demoLeaderless : MediaState :=
  { videoOriginal := none,
    videoMuted := some { currentTime := 5, paused := true },
    audioIsolated := some { currentTime := 5, paused := true },
    isSynced := true, isPlaying1 := false, isPlaying2 := false }

/-- Linked and playing: leader at 0, one follower drifted to 1, the other
within tolerance at 1/10. -/
def demoTick : MediaState :=
  { videoOriginal := some { currentTime := 0, paused := false },
    videoMuted := some { currentTime := 1, paused := false },
    audioIsolated := some { currentTime := 1/10, paused := false },
    isSynced := true, isPlaying1 := true, isPlaying2 := true }

/-- A channel-data lookup: the identity on the index. -/
def demoLookupA : ℤ → ℚ := fun j => (j : ℚ)

/-- A channel-data lookup agreeing with `demoLookupA` below index 3 and
differing from it at every index from 3 on. -/
def demoLookupB : ℤ → ℚ := fun j => if j < 3 then (j : ℚ) else 99

/-! ## Theorems -/

/-- The encoder's branch condition `0.5 + clamped < 0` holds exactly for
input samples strictly below `-0.5`. -/
theorem clampSample_branch_iff (x : ℚ) : 1/2 + clampSample x < 0 ↔ x < -(1/2) := by
  have h1 : (1/2 : ℚ) + clampSample x < 0 ↔ clampSample x < -(1/2) := by
    constructor <;> intro h <;> linarith
  rw [h1, clampSample, max_lt_iff, min_lt_iff]
  norm_num

/-- The two bytes of an encoded sample. -/
theorem i16le_length (s : ℤ) : (i16le s).length = 2 := rfl

/-- Flattening a list along a function whose values all have length `k`
multiplies the length by `k`. -/
theorem length_flatMap_const {α : Type} (l : List α) (f : α → List ℕ) (k : ℕ)
    (h : ∀ a, (f a).length = k) : (l.flatMap f).length = l.length * k := by
  induction l with
  | nil => simp
  | cons a t ih =>
    simp only [List.flatMap_cons, List.length_append, List.length_cons, ih, h]
    ring

/-- The data loop writes `(frames - 44) * channels * 2` bytes. -/
theorem wavDataWritten_length (b : AudioBuffer) :
    (wavDataWritten b).length = (b.length - 44) * (b.numberOfChannels * 2) := by
  have hin : ∀ pos : ℕ,
      ((List.range b.numberOfChannels).flatMap fun i =>
        i16le (encodeSample ((b.getChannelData i).getD pos 0))).length
      = b.numberOfChannels * 2 := by
    intro pos
    rw [length_flatMap_const (List.range b.numberOfChannels)
      (fun i => i16le (encodeSample ((b.getChannelData i).getD pos 0))) 2 fun i => rfl,
      List.length_range]
  rw [wavDataWritten,
    length_flatMap_const (List.range' 44 (b.length - 44)) _ (b.numberOfChannels * 2) hin,
    List.length_range']

/-- The data region spans exactly `frames * channels * 2` bytes. -/
theorem wavData_length (b : AudioBuffer) :
    (wavData b).length = b.length * b.numberOfChannels * 2 := by
  have hle : (b.length - 44) * (b.numberOfChannels * 2)
      ≤ b.length * (b.numberOfChannels * 2) :=
    Nat.mul_le_mul_right _ (Nat.sub_le _ _)
  rw [wavData, List.length_append, List.length_replicate, wavDataWritten_length,
    Nat.mul_assoc]
  omega

/-- The zero tail after the written bytes spans
`min frames 44 * channels * 2` bytes. -/
theorem wavData_eq (b : AudioBuffer) :
    wavData b = wavDataWritten b
      ++ List.replicate (min b.length 44 * (b.numberOfChannels * 2)) 0 := by
  have hpad : b.length * b.numberOfChannels * 2 - (wavDataWritten b).length
      = min b.length 44 * (b.numberOfChannels * 2) := by
    rw [wavDataWritten_length, Nat.mul_assoc, ← Nat.sub_mul]
    congr 1
    omega
  rw [wavData, hpad]

/-- The header written by the encoder, flattened into the canonical field
sequence. -/
theorem wavHeader_bytes (b : AudioBuffer) :
    wavHeader b =
      [82, 73, 70, 70] ++ u32le (36 + b.length * b.numberOfChannels * 2) ++
      [87, 65, 86, 69] ++ [102, 109, 116, 32] ++ u32le 16 ++ u16le 1 ++
      u16le b.numberOfChannels ++ u32le b.sampleRate ++
      u32le (b.sampleRate * 2 * b.numberOfChannels) ++
      u16le (b.numberOfChannels * 2) ++ u16le 16 ++
      [100, 97, 116, 97] ++ u32le (b.length * b.numberOfChannels * 2) := by
  have h8 : b.length * b.numberOfChannels * 2 + 44 - 8
      = 36 + b.length * b.numberOfChannels * 2 := by omega
  have h44 : b.length * b.numberOfChannels * 2 + 44 - 40 - 4
      = b.length * b.numberOfChannels * 2 := by omega
  rw [wavHeader]
  simp only [h8, h44]
  norm_num [u32le]

/-- The header spans exactly 44 bytes. -/
theorem wavHeader_length (b : AudioBuffer) : (wavHeader b).length = 44 := by
  rw [wavHeader_bytes]
  simp [u32le, u16le]

/-- C1 counterexample: (i) the claim scales every negative clamped
sample by 32768, but the source's condition is `0.5 + sample < 0`, i.e.
`sample < -0.5`: at sample `-1/4` the encoder computes
`trunc(-1/4 * 32767) = -8191` where the claimed rule gives `-8192`;
(ii) the claim's scenario fails: the data loop reuses the header byte
cursor (`pos = 44` after the header) as its frame index, so a 1-sample,
1-channel buffer with value 1.0 encodes no samples at all — its data
chunk is `[0, 0]`, not 32767. -/
theorem encodeSample_spec_scale_cx :
    encodeSample (-(1/4)) = -8191 ∧
    specScaleSample (-(1/4)) = -8192 ∧
    ¬ (-8191 : ℤ) = -8192 ∧
    (audioBufferToWav { sampleRate := 8000, length := 1, channels := [[1]] }).drop 44
      = [0, 0] ∧
    ¬ ([0, 0] : List ℕ) = i16le 32767 := by
  with_unfolding_all decide

/-- C1 (amended): `encodeWav` clamps every input sample to `[-1, 1]`,
scales a clamped sample strictly below `-0.5` by 32768 and every other
sample by 32767 (the source's branch condition is `0.5 + sample < 0`),
truncates toward zero, and stores the result as a 16-bit signed
little-endian value — but only for frames 44 onward, because the data
loop reuses the header byte cursor as its frame index.  In particular a
1-sample, 1-channel buffer with sample value 1.0 yields the data chunk
`[0, 0]`, while a 45-frame mono buffer whose frame 44 is `x` starts its
data chunk with exactly the encoded value of `x`. -/
theorem encodeSample_scale_correct (x : ℚ) :
    (x < -(1/2) → encodeSample x = ratTrunc (clampSample x * 32768)) ∧
    (-(1/2) ≤ x → encodeSample x = ratTrunc (clampSample x * 32767)) ∧
    (audioBufferToWav { sampleRate := 8000, length := 1, channels := [[1]] }).drop 44
      = [0, 0] ∧
    (audioBufferToWav (padBuf x)).drop 44
      = i16le (encodeSample x) ++ List.replicate 88 0 := by
  refine ⟨fun h => ?_, fun h => ?_, by with_unfolding_all decide, ?_⟩
  · rw [encodeSample, if_pos ((clampSample_branch_iff x).mpr h)]
  · rw [encodeSample, if_neg fun hc => absurd ((clampSample_branch_iff x).mp hc) (not_lt.mpr h)]
  · have hx : (List.replicate 44 (0:ℚ) ++ [x]).getD 44 0 = x := by
      rw [List.getD_append_right (List.replicate 44 (0:ℚ)) [x] 0 44 (by simp)]
      simp
    have h1 : (padBuf x).length - 44 = 1 := rfl
    have h2 : (padBuf x).numberOfChannels = 1 := rfl
    have hchan : (padBuf x).getChannelData 0 = List.replicate 44 (0:ℚ) ++ [x] := rfl
    have h3 : List.range 1 = [0] := rfl
    have hw : wavDataWritten (padBuf x) = i16le (encodeSample x) := by
      rw [wavDataWritten, h1, h2]
      simp only [List.range'_one, h3, List.flatMap_cons, List.flatMap_nil,
        List.append_nil, hchan, hx]
    rw [audioBufferToWav, List.drop_left' (wavHeader_length _), wavData, hw, i16le_length]
    norm_num [padBuf, AudioBuffer.numberOfChannels]

/-- Witness for C1's amended theorem at the samples `-3/4` and `1/4`,
and at a 45-frame buffer whose frame 44 is 1.0 (encoded as 0x7FFF at the
front of the data chunk). -/
theorem encodeSample_scale_correct_witness :
    encodeSample (-(3/4)) = ratTrunc (clampSample (-(3/4)) * 32768) ∧
    encodeSample (1/4) = ratTrunc (clampSample (1/4) * 32767) ∧
    (audioBufferToWav (padBuf 1)).drop 44 = i16le 32767 ++ List.replicate 88 0 :=
  ⟨(encodeSample_scale_correct (-(3/4))).1 (by norm_num),
   (encodeSample_scale_correct (1/4)).2.1 (by norm_num),
   ((encodeSample_scale_correct 1).2.2.2).trans (by with_unfolding_all decide)⟩

/-- C6 counterexample: the data region is not "the interleaved 16-bit
samples in channel-index order" — the data loop starts at the header
cursor value 44 instead of frame 0.  For a 1-frame, 1-channel buffer
with sample 1.0 the claimed layout has data chunk `[255, 127]`
(`i16le 32767`), but the encoder leaves it `[0, 0]`. -/
theorem audioBufferToWav_data_cx :
    (audioBufferToWav { sampleRate := 8000, length := 1, channels := [[1]] }).drop 44
      = [0, 0] ∧
    specWavData { sampleRate := 8000, length := 1, channels := [[1]] } = [255, 127] ∧
    ¬ (audioBufferToWav { sampleRate := 8000, length := 1, channels := [[1]] }).drop 44
      = specWavData { sampleRate := 8000, length := 1, channels := [[1]] } := by
  with_unfolding_all decide

/-- C6 (amended): `encodeWav` produces exactly `44 + frames * channels *
2` bytes; the first 44 bytes are the canonical little-endian header
("RIFF", fileLength-8, "WAVE", "fmt ", 16, PCM tag 1, channel count,
sample rate, byte rate, block align, 16 bits/sample, "data", data
length = frames * channels * 2); the data region holds, at its front,
the interleaved 16-bit samples of frames 44 through frames-1 only — the
data loop reuses the header byte cursor as its frame index — followed by
`min frames 44 * channels * 2` zero bytes; a buffer with at most 44
frames has an all-zero data region; and a zero-channel buffer yields
just the 44-byte header, whose data length field encodes 0. -/
theorem audioBufferToWav_layout (b : AudioBuffer) :
    (audioBufferToWav b).length = 44 + b.length * b.numberOfChannels * 2 ∧
    (audioBufferToWav b).take 44 =
      [82, 73, 70, 70] ++ u32le (36 + b.length * b.numberOfChannels * 2) ++
      [87, 65, 86, 69] ++ [102, 109, 116, 32] ++ u32le 16 ++ u16le 1 ++
      u16le b.numberOfChannels ++ u32le b.sampleRate ++
      u32le (b.sampleRate * 2 * b.numberOfChannels) ++
      u16le (b.numberOfChannels * 2) ++ u16le 16 ++
      [100, 97, 116, 97] ++ u32le (b.length * b.numberOfChannels * 2) ∧
    (audioBufferToWav b).drop 44
      = wavDataWritten b
        ++ List.replicate (min b.length 44 * (b.numberOfChannels * 2)) 0 ∧
    (b.length ≤ 44 →
      (audioBufferToWav b).drop 44
        = List.replicate (b.length * b.numberOfChannels * 2) 0) ∧
    (b.numberOfChannels = 0 →
      audioBufferToWav b = wavHeader b ∧ (audioBufferToWav b).length = 44) := by
  have htake : (audioBufferToWav b).take 44 = wavHeader b := by
    rw [audioBufferToWav, List.take_left' (wavHeader_length b)]
  have hdrop : (audioBufferToWav b).drop 44 = wavData b := by
    rw [audioBufferToWav, List.drop_left' (wavHeader_length b)]
  refine ⟨?_, by rw [htake, wavHeader_bytes], ?_, fun hle => ?_, fun h0 => ?_⟩
  · rw [audioBufferToWav, List.length_append, wavHeader_length, wavData_length]
  · rw [hdrop, wavData_eq]
  · have hw : wavDataWritten b = [] := by
      have h0 : b.length - 44 = 0 := by omega
      rw [wavDataWritten, h0]
      rfl
    rw [hdrop, wavData_eq, hw, List.nil_append, min_eq_left hle, Nat.mul_assoc]
  · have hdata : wavData b = [] := by
      have := wavData_length b
      rw [h0] at this
      simpa using List.length_eq_zero.mp (by omega)
    constructor
    · rw [audioBufferToWav, hdata, List.append_nil]
    · rw [audioBufferToWav, hdata, List.append_nil, wavHeader_length]

/-- Witness for C6 at a zero-channel, 3-frame buffer (header only) and a
2-frame mono buffer (all-zero data region despite nonzero samples, since
2 ≤ 44 frames). -/
theorem audioBufferToWav_layout_witness :
    audioBufferToWav { sampleRate := 8000, length := 3, channels := [] }
      = wavHeader { sampleRate := 8000, length := 3, channels := [] } ∧
    (audioBufferToWav { sampleRate := 8000, length := 3, channels := [] }).length = 44 ∧
    (audioBufferToWav { sampleRate := 8000, length := 2, channels := [[1, 1]] }).drop 44
      = [0, 0, 0, 0] := by
  obtain ⟨h1, h2⟩ :=
    (audioBufferToWav_layout { sampleRate := 8000, length := 3, channels := [] }).2.2.2.2 rfl
  refine ⟨h1, h2, ?_⟩
  exact ((audioBufferToWav_layout { sampleRate := 8000, length := 2, channels := [[1, 1]] }).2.2.2.1
    (by decide)).trans (by with_unfolding_all decide)

/-- The `time` field of the point pushed at loop index `i`. -/
theorem extractPoint_time (buffer1 buffer2 : Option AudioBuffer) (step : ℚ) (i : ℕ) :
    (extractPoint buffer1 buffer2 step i).time = (i : ℚ) * step := rfl

/-- The extraction loop appends exactly one point per index, so its
`data` is the pointwise map over the processed indices. -/
theorem foldl_extractStep_data (buffer1 buffer2 : Option AudioBuffer) (step : ℚ)
    (l : List ℕ) (acc : ExtractAcc) :
    (l.foldl (extractStep buffer1 buffer2 step) acc).data
      = acc.data ++ l.map (extractPoint buffer1 buffer2 step) := by
  induction l generalizing acc with
  | nil => simp
  | cons i t ih =>
    rw [List.foldl_cons, ih]
    simp [extractStep]

/-- Nonnegativity of a buffer duration. -/
theorem AudioBuffer.duration_nonneg (b : AudioBuffer) : 0 ≤ b.duration := by
  rw [AudioBuffer.duration]
  positivity

/-- Nonnegativity of the overall duration. -/
theorem extractDuration_nonneg (buffer1 buffer2 : Option AudioBuffer) :
    0 ≤ extractDuration buffer1 buffer2 := by
  rcases buffer1 with _ | a <;> rcases buffer2 with _ | c <;>
    simp [extractDuration, le_max_iff, AudioBuffer.duration_nonneg]

/-- In the non-degenerate case the returned points are the mapped loop
points. -/
theorem extract_points_eq (buffer1 buffer2 : Option AudioBuffer) (samples : ℕ)
    (hd : extractDuration buffer1 buffer2 ≠ 0) :
    (extractAudioPeaks buffer1 buffer2 samples).points
      = (List.range samples).map
          (extractPoint buffer1 buffer2 (extractDuration buffer1 buffer2 / (samples : ℚ))) := by
  simp only [extractAudioPeaks, if_neg hd]
  show (extractLoopAcc buffer1 buffer2 samples).data = _
  rw [extractLoopAcc, foldl_extractStep_data, List.nil_append]

/-- In the non-degenerate case the two regions are the option-mapped
records built from the loop maxima. -/
theorem extract_regions_eq (buffer1 buffer2 : Option AudioBuffer) (samples : ℕ)
    (hd : extractDuration buffer1 buffer2 ≠ 0) :
    (extractAudioPeaks buffer1 buffer2 samples).originalPeakRegion
      = buffer1.map (fun _ =>
          { start := max 0 ((extractLoopAcc buffer1 buffer2 samples).maxOriginalTime
              - min (extractDuration buffer1 buffer2 * (1/10)) 5 / 2)
            stop := min (extractDuration buffer1 buffer2)
              ((extractLoopAcc buffer1 buffer2 samples).maxOriginalTime
                + min (extractDuration buffer1 buffer2 * (1/10)) 5 / 2)
            amplitude := (extractLoopAcc buffer1 buffer2 samples).maxOriginalAmplitude }) ∧
    (extractAudioPeaks buffer1 buffer2 samples).isolatedPeakRegion
      = buffer2.map (fun _ =>
          { start := max 0 ((extractLoopAcc buffer1 buffer2 samples).maxIsolatedTime
              - min (extractDuration buffer1 buffer2 * (1/10)) 5 / 2)
            stop := min (extractDuration buffer1 buffer2)
              ((extractLoopAcc buffer1 buffer2 samples).maxIsolatedTime
                + min (extractDuration buffer1 buffer2 * (1/10)) 5 / 2)
            amplitude := (extractLoopAcc buffer1 buffer2 samples).maxIsolatedAmplitude }) := by
  constructor <;> simp only [extractAudioPeaks, if_neg hd]

/-- C5: with at least one supplied buffer of positive overall duration and
`sampleCount > 0`, `extractPeaks` returns exactly `sampleCount` points;
point `i` has `time = i * (duration / sampleCount)`; the times are
strictly increasing; and every time is strictly below the duration. -/
theorem extractAudioPeaks_points_spec (buffer1 buffer2 : Option AudioBuffer) (samples : ℕ)
    (hs : 0 < samples) (hd : 0 < extractDuration buffer1 buffer2) :
    (extractAudioPeaks buffer1 buffer2 samples).points.length = samples ∧
    (extractAudioPeaks buffer1 buffer2 samples).points.map AudioDataPoint.time
      = (List.range samples).map
          (fun i : ℕ => (i : ℚ) * (extractDuration buffer1 buffer2 / (samples : ℚ))) ∧
    ((extractAudioPeaks buffer1 buffer2 samples).points.map AudioDataPoint.time).Pairwise (· < ·) ∧
    ∀ p ∈ (extractAudioPeaks buffer1 buffer2 samples).points,
      p.time < extractDuration buffer1 buffer2 := by
  have hne : extractDuration buffer1 buffer2 ≠ 0 := ne_of_gt hd
  have hsq : (0 : ℚ) < (samples : ℚ) := by exact_mod_cast hs
  have hstep : 0 < extractDuration buffer1 buffer2 / (samples : ℚ) := div_pos hd hsq
  have hpts := extract_points_eq buffer1 buffer2 samples hne
  have hmap : (extractAudioPeaks buffer1 buffer2 samples).points.map AudioDataPoint.time
      = (List.range samples).map
          (fun i : ℕ => (i : ℚ) * (extractDuration buffer1 buffer2 / (samples : ℚ))) := by
    rw [hpts, List.map_map]
    rfl
  refine ⟨by rw [hpts]; simp, hmap, ?_, ?_⟩
  · rw [hmap]
    refine List.Pairwise.map _ (fun a b hab => ?_) (List.pairwise_lt_range samples)
    exact mul_lt_mul_of_pos_right (by exact_mod_cast hab) hstep
  · intro p hp
    rw [hpts] at hp
    obtain ⟨i, hi, rfl⟩ := List.mem_map.mp hp
    have hi' : i < samples := List.mem_range.mp hi
    rw [extractPoint_time]
    calc (i : ℚ) * (extractDuration buffer1 buffer2 / (samples : ℚ))
        < (samples : ℚ) * (extractDuration buffer1 buffer2 / (samples : ℚ)) :=
          mul_lt_mul_of_pos_right (by exact_mod_cast hi') hstep
      _ = extractDuration buffer1 buffer2 := by
          rw [mul_comm, div_mul_cancel₀ _ (ne_of_gt hsq)]

/-- Witness for C5: two buffers of durations 10 s and 8 s with
`sampleCount = 5` yield 5 points at times [0, 2, 4, 6, 8]. -/
theorem extractAudioPeaks_points_spec_witness :
    (extractAudioPeaks (some demoBuf10) (some demoBuf8) 5).points.length = 5 ∧
    (extractAudioPeaks (some demoBuf10) (some demoBuf8) 5).points.map AudioDataPoint.time
      = [0, 2, 4, 6, 8] :=
  ⟨(extractAudioPeaks_points_spec (some demoBuf10) (some demoBuf8) 5 (by norm_num)
      (by with_unfolding_all decide)).1,
   by with_unfolding_all decide⟩

/-- C7 counterexample: with a supplied 10-second buffer and
`sampleCount = 0` the source returns no points but still emits a
zero-amplitude peak region anchored at time 0 — not an empty output. -/
theorem extract_zero_samples_cx :
    (extractAudioPeaks (some demoBuf10) none 0).points = [] ∧
    (extractAudioPeaks (some demoBuf10) none 0).originalPeakRegion
      = some { start := 0, stop := 1/2, amplitude := 0 } ∧
    ¬ (extractAudioPeaks (some demoBuf10) none 0).originalPeakRegion = none := by
  with_unfolding_all decide

/-- C7 (amended): with both buffers absent, or with overall duration 0,
`extractPeaks` returns no points and no regions; with `sampleCount = 0`
it returns no points, but for each supplied buffer (when the duration is
positive) it still emits a zero-amplitude `PeakRegion` anchored at time
0 of width `min(duration*0.1, 5)/2`; there are no error conditions (the
function is total and deterministic). -/
theorem extract_degenerate (buffer1 buffer2 : Option AudioBuffer) (samples : ℕ) :
    extractAudioPeaks none none samples
      = { points := [], originalPeakRegion := none, isolatedPeakRegion := none } ∧
    (extractDuration buffer1 buffer2 = 0 →
      extractAudioPeaks buffer1 buffer2 samples
        = { points := [], originalPeakRegion := none, isolatedPeakRegion := none }) ∧
    (extractAudioPeaks buffer1 buffer2 0).points = [] ∧
    (extractDuration buffer1 buffer2 ≠ 0 →
      (extractAudioPeaks buffer1 buffer2 0).originalPeakRegion
        = buffer1.map (fun _ =>
            { start := 0
              stop := min (extractDuration buffer1 buffer2 * (1/10)) 5 / 2
              amplitude := 0 }) ∧
      (extractAudioPeaks buffer1 buffer2 0).isolatedPeakRegion
        = buffer2.map (fun _ =>
            { start := 0
              stop := min (extractDuration buffer1 buffer2 * (1/10)) 5 / 2
              amplitude := 0 })) := by
  have hzero : ∀ (n : ℕ) (b1 b2 : Option AudioBuffer), extractDuration b1 b2 = 0 →
      extractAudioPeaks b1 b2 n
        = { points := [], originalPeakRegion := none, isolatedPeakRegion := none } := by
    intro n b1 b2 h
    simp only [extractAudioPeaks, if_pos h]
  refine ⟨hzero samples none none (by simp [extractDuration]), hzero samples buffer1 buffer2,
    ?_, fun hd => ?_⟩
  · by_cases hd : extractDuration buffer1 buffer2 = 0
    · rw [hzero 0 buffer1 buffer2 hd]
    · rw [extract_points_eq buffer1 buffer2 0 hd]
      simp
  · have hdpos : 0 < extractDuration buffer1 buffer2 :=
      lt_of_le_of_ne (extractDuration_nonneg buffer1 buffer2) (Ne.symm hd)
    have hacc : extractLoopAcc buffer1 buffer2 0
        = { data := [], maxOriginalAmplitude := 0, maxOriginalTime := 0,
            maxIsolatedAmplitude := 0, maxIsolatedTime := 0 } := by
      rw [extractLoopAcc]
      simp
    have hw0 : 0 ≤ min (extractDuration buffer1 buffer2 * (1/10)) 5 := by
      refine le_min (by positivity) (by norm_num)
    have hwd : min (extractDuration buffer1 buffer2 * (1/10)) 5 / 2
        ≤ extractDuration buffer1 buffer2 := by
      have h1 : min (extractDuration buffer1 buffer2 * (1/10)) 5
          ≤ extractDuration buffer1 buffer2 * (1/10) := min_le_left _ _
      linarith
    have hmax : max 0 ((0:ℚ) - min (extractDuration buffer1 buffer2 * (1/10)) 5 / 2) = 0 :=
      max_eq_left (by linarith)
    have hmin : min (extractDuration buffer1 buffer2)
        ((0:ℚ) + min (extractDuration buffer1 buffer2 * (1/10)) 5 / 2)
        = min (extractDuration buffer1 buffer2 * (1/10)) 5 / 2 := by
      rw [zero_add]
      exact min_eq_right (by linarith)
    obtain ⟨hO, hI⟩ := extract_regions_eq buffer1 buffer2 0 hd
    rw [hO, hI, hacc]
    constructor
    · rcases buffer1 with _ | a
      · rfl
      · simp only [Option.map_some]
        rw [hmax, hmin]
    · rcases buffer2 with _ | c
      · rfl
      · simp only [Option.map_some]
        rw [hmax, hmin]

/-- Witness for C7 at concrete inputs: absent buffers, and a 10-second
buffer with `sampleCount = 0`. -/
theorem extract_degenerate_witness :
    extractAudioPeaks none none 3
      = { points := [], originalPeakRegion := none, isolatedPeakRegion := none } ∧
    (extractAudioPeaks (some demoBuf10) none 0).points = [] ∧
    (extractAudioPeaks (some demoBuf10) none 0).originalPeakRegion
      = some { start := 0, stop := 1/2, amplitude := 0 } :=
  ⟨(extract_degenerate none none 3).1,
   (extract_degenerate (some demoBuf10) none 0).2.2.1,
   (((extract_degenerate (some demoBuf10) none 0).2.2.2
      (by with_unfolding_all decide)).1).trans (by with_unfolding_all decide)⟩

/-- The running maximum-times of the extraction loop stay inside any
interval `[0, d]` that contains all the processed slot times. -/
theorem foldl_extractStep_maxTime (buffer1 buffer2 : Option AudioBuffer) (step d : ℚ)
    (l : List ℕ) (acc : ExtractAcc)
    (hl : ∀ i ∈ l, 0 ≤ (i : ℚ) * step ∧ (i : ℚ) * step ≤ d)
    (hO1 : 0 ≤ acc.maxOriginalTime) (hO2 : acc.maxOriginalTime ≤ d)
    (hI1 : 0 ≤ acc.maxIsolatedTime) (hI2 : acc.maxIsolatedTime ≤ d) :
    0 ≤ (l.foldl (extractStep buffer1 buffer2 step) acc).maxOriginalTime ∧
    (l.foldl (extractStep buffer1 buffer2 step) acc).maxOriginalTime ≤ d ∧
    0 ≤ (l.foldl (extractStep buffer1 buffer2 step) acc).maxIsolatedTime ∧
    (l.foldl (extractStep buffer1 buffer2 step) acc).maxIsolatedTime ≤ d := by
  induction l generalizing acc with
  | nil => exact ⟨hO1, hO2, hI1, hI2⟩
  | cons i t ih =>
    rw [List.foldl_cons]
    have hi := hl i (List.mem_cons_self i t)
    refine ih _ (fun j hj => hl j (List.mem_cons_of_mem _ hj)) ?_ ?_ ?_ ?_ <;>
      simp only [extractStep] <;> split
    · rw [extractPoint_time]; exact hi.1
    · exact hO1
    · rw [extractPoint_time]; exact hi.2
    · exact hO2
    · rw [extractPoint_time]; exact hi.1
    · exact hI1
    · rw [extractPoint_time]; exact hi.2
    · exact hI2

/-- The loop maxima-time bounds for the actual loop over
`range samples`. -/
theorem extractLoopAcc_maxTime (buffer1 buffer2 : Option AudioBuffer) (samples : ℕ)
    (hd : 0 ≤ extractDuration buffer1 buffer2) :
    0 ≤ (extractLoopAcc buffer1 buffer2 samples).maxOriginalTime ∧
    (extractLoopAcc buffer1 buffer2 samples).maxOriginalTime ≤ extractDuration buffer1 buffer2 ∧
    0 ≤ (extractLoopAcc buffer1 buffer2 samples).maxIsolatedTime ∧
    (extractLoopAcc buffer1 buffer2 samples).maxIsolatedTime ≤ extractDuration buffer1 buffer2 := by
  rw [extractLoopAcc]
  refine foldl_extractStep_maxTime buffer1 buffer2 _ _ _ _ (fun i hi => ?_)
    le_rfl hd le_rfl hd
  have hi' : i < samples := List.mem_range.mp hi
  have hs0 : (0:ℚ) < (samples : ℚ) := by exact_mod_cast Nat.zero_lt_of_lt hi'
  have hstep : 0 ≤ extractDuration buffer1 buffer2 / (samples : ℚ) := div_nonneg hd hs0.le
  refine ⟨mul_nonneg (Nat.cast_nonneg i) hstep, ?_⟩
  calc (i : ℚ) * (extractDuration buffer1 buffer2 / (samples : ℚ))
      ≤ (samples : ℚ) * (extractDuration buffer1 buffer2 / (samples : ℚ)) :=
        mul_le_mul_of_nonneg_right (by exact_mod_cast hi'.le) hstep
    _ = extractDuration buffer1 buffer2 := by rw [mul_comm, div_mul_cancel₀ _ (ne_of_gt hs0)]

/-- C8: every `PeakRegion` returned by `extractPeaks` satisfies
`0 ≤ start ≤ end ≤ duration` and `end - start ≤ min(duration*0.1, 5)`
(half-width at most `min(duration*0.1, 5)/2`, clamped to
`[0, duration]`), and a region is emitted only for a supplied buffer. -/
theorem peakRegion_bounds (buffer1 buffer2 : Option AudioBuffer) (samples : ℕ) (r : PeakRegion)
    (h : (extractAudioPeaks buffer1 buffer2 samples).originalPeakRegion = some r ∨
         (extractAudioPeaks buffer1 buffer2 samples).isolatedPeakRegion = some r) :
    (0 ≤ r.start ∧ r.start ≤ r.stop ∧ r.stop ≤ extractDuration buffer1 buffer2 ∧
      r.stop - r.start ≤ min (extractDuration buffer1 buffer2 * (1/10)) 5) ∧
    ((extractAudioPeaks buffer1 buffer2 samples).originalPeakRegion.isSome = true →
      buffer1.isSome = true) ∧
    ((extractAudioPeaks buffer1 buffer2 samples).isolatedPeakRegion.isSome = true →
      buffer2.isSome = true) := by
  by_cases hd0 : extractDuration buffer1 buffer2 = 0
  · exfalso
    rcases h with h | h <;>
      simp only [extractAudioPeaks, if_pos hd0] at h <;> exact Option.noConfusion h
  · have hd : 0 < extractDuration buffer1 buffer2 :=
      lt_of_le_of_ne (extractDuration_nonneg buffer1 buffer2) (Ne.symm hd0)
    have hw0 : 0 ≤ min (extractDuration buffer1 buffer2 * (1/10)) 5 :=
      le_min (by positivity) (by norm_num)
    obtain ⟨hT0, hTd, hS0, hSd⟩ := extractLoopAcc_maxTime buffer1 buffer2 samples hd.le
    obtain ⟨hO, hI⟩ := extract_regions_eq buffer1 buffer2 samples hd0
    have hsome : ∀ T : ℚ, 0 ≤ T → T ≤ extractDuration buffer1 buffer2 →
        ∀ r' : PeakRegion,
        r' = { start := max 0 (T - min (extractDuration buffer1 buffer2 * (1/10)) 5 / 2),
               stop := min (extractDuration buffer1 buffer2)
                 (T + min (extractDuration buffer1 buffer2 * (1/10)) 5 / 2),
               amplitude := r'.amplitude } →
        0 ≤ r'.start ∧ r'.start ≤ r'.stop ∧ r'.stop ≤ extractDuration buffer1 buffer2 ∧
          r'.stop - r'.start ≤ min (extractDuration buffer1 buffer2 * (1/10)) 5 := by
      intro T hT0' hTd' r' hr
      have h1 : 0 ≤ r'.start := by rw [hr]; exact le_max_left _ _
      have h2 : r'.start ≤ r'.stop := by
        rw [hr]
        refine max_le (le_min hd.le (by linarith)) (le_min (by linarith) (by linarith))
      have h3 : r'.stop ≤ extractDuration buffer1 buffer2 := by rw [hr]; exact min_le_left _ _
      have h4 : r'.stop - r'.start ≤ min (extractDuration buffer1 buffer2 * (1/10)) 5 := by
        have ha : r'.stop ≤ T + min (extractDuration buffer1 buffer2 * (1/10)) 5 / 2 := by
          rw [hr]; exact min_le_right _ _
        have hb : T - min (extractDuration buffer1 buffer2 * (1/10)) 5 / 2 ≤ r'.start := by
          rw [hr]; exact le_max_right _ _
        linarith
      exact ⟨h1, h2, h3, h4⟩
    refine ⟨?_, ?_, ?_⟩
    · rcases h with h | h
      · rcases buffer1 with _ | a
        · rw [hO] at h; exact Option.noConfusion h
        · rw [hO] at h
          simp only [Option.map_some', Option.some.injEq] at h
          exact hsome _ hT0 hTd r (by rw [← h])
      · rcases buffer2 with _ | c
        · rw [hI] at h; exact Option.noConfusion h
        · rw [hI] at h
          simp only [Option.map_some', Option.some.injEq] at h
          exact hsome _ hS0 hSd r (by rw [← h])
    · intro hsome1
      rw [hO, Option.isSome_map'] at hsome1
      exact hsome1
    · intro hsome2
      rw [hI, Option.isSome_map'] at hsome2
      exact hsome2

/-- Witness for C8: the region returned for a real 10-second buffer. -/
theorem peakRegion_bounds_witness :
    (0:ℚ) ≤ 0 ∧ (0:ℚ) ≤ 1/2 ∧ (1/2:ℚ) ≤ extractDuration (some demoBuf10) none ∧
      (1/2:ℚ) - 0 ≤ min (extractDuration (some demoBuf10) none * (1/10)) 5 := by
  have h := peakRegion_bounds (some demoBuf10) none 7
    { start := 0, stop := 1/2, amplitude := 0 }
    (Or.inl (by with_unfolding_all decide))
  exact h.1

/-- The scan reads the channel only below `len`: its result is unchanged
under any change of the lookup at indices `≥ len`. -/
theorem peakScan_lookup_congr (f g : ℤ → ℚ) (len endSample stride : ℤ) (fuel : ℕ)
    (h : ∀ j : ℤ, j < len → f j = g j) :
    ∀ (i : ℤ) (m : ℚ),
      peakScan f len endSample stride fuel i m = peakScan g len endSample stride fuel i m := by
  induction fuel with
  | zero => intro i m; rfl
  | succ fuel ih =>
    intro i m
    simp only [peakScan]
    by_cases hc : i < endSample ∧ i < len
    · rw [if_pos hc, if_pos hc, h i hc.2, ih]
    · rw [if_neg hc, if_neg hc]

/-- The executable floor agrees with the mathematical floor. -/
theorem ratFloor_eq_floor (q : ℚ) : ratFloor q = ⌊q⌋ := Rat.floor_def.symm

/-- A window starting at or past the end of a well-formed buffer scans
nothing and yields amplitude 0. -/
theorem getPeak_beyond_end (b : AudioBuffer) (t w : ℚ) (hwf : b.wf) (ht : b.duration ≤ t) :
    getPeak b t w = 0 := by
  obtain ⟨hrate, hch⟩ := hwf
  have hlen : (b.getChannelData 0).length ≤ b.length := by
    rcases hb : b.channels with _ | ⟨c0, rest⟩
    · simp [AudioBuffer.getChannelData, hb]
    · have hc0 := hch c0 (by rw [hb]; exact List.mem_cons_self _ _)
      simp [AudioBuffer.getChannelData, hb, hc0]
  have hrateQ : (0:ℚ) < (b.sampleRate : ℚ) := by exact_mod_cast hrate
  have hmul : (((b.getChannelData 0).length : ℤ) : ℚ) ≤ t * (b.sampleRate : ℚ) := by
    have h1 : ((b.getChannelData 0).length : ℚ) ≤ (b.length : ℚ) := by exact_mod_cast hlen
    have h2 : (b.length : ℚ) = b.duration * (b.sampleRate : ℚ) := by
      rw [AudioBuffer.duration, div_mul_cancel₀ _ (ne_of_gt hrateQ)]
    have h3 : b.duration * (b.sampleRate : ℚ) ≤ t * (b.sampleRate : ℚ) :=
      mul_le_mul_of_nonneg_right ht hrateQ.le
    push_cast
    linarith
  have hstart : ((b.getChannelData 0).length : ℤ) ≤ ratFloor (t * (b.sampleRate : ℚ)) := by
    rw [ratFloor_eq_floor]
    exact Int.le_floor.mpr hmul
  simp only [getPeak, peakScan]
  rw [if_neg fun hc => absurd hc.2 (not_lt.mpr hstart)]

/-- C10: the window scan of `getPeak` never reads a sample index at or
beyond the first channel's length (its result does not depend on the
lookup at indices from the length on), and every point whose window lies
entirely at or beyond a well-formed buffer's end reports amplitude 0 for
that buffer. -/
theorem getPeak_safety :
    (∀ (f g : ℤ → ℚ) (len endSample stride : ℤ) (fuel : ℕ) (i : ℤ) (m : ℚ),
        (∀ j : ℤ, j < len → f j = g j) →
        peakScan f len endSample stride fuel i m = peakScan g len endSample stride fuel i m) ∧
    (∀ (b : AudioBuffer) (t w : ℚ), b.wf → b.duration ≤ t → getPeak b t w = 0) ∧
    (∀ (b : AudioBuffer) (buffer2 : Option AudioBuffer) (samples : ℕ) (p : AudioDataPoint),
        b.wf → p ∈ (extractAudioPeaks (some b) buffer2 samples).points →
        b.duration ≤ p.time → p.original = 0) ∧
    (∀ (buffer1 : Option AudioBuffer) (b : AudioBuffer) (samples : ℕ) (p : AudioDataPoint),
        b.wf → p ∈ (extractAudioPeaks buffer1 (some b) samples).points →
        b.duration ≤ p.time → p.isolated = 0) := by
  refine ⟨fun f g len endS stride fuel i m h =>
      peakScan_lookup_congr f g len endS stride fuel h i m,
    getPeak_beyond_end, ?_, ?_⟩
  · intro b buffer2 samples p hwf hp ht
    by_cases hd : extractDuration (some b) buffer2 = 0
    · simp only [extractAudioPeaks, if_pos hd] at hp
      exact absurd hp (List.not_mem_nil p)
    · rw [extract_points_eq _ _ _ hd] at hp
      obtain ⟨i, hi, rfl⟩ := List.mem_map.mp hp
      rw [extractPoint_time] at ht
      exact getPeak_beyond_end b _ _ hwf ht
  · intro buffer1 b samples p hwf hp ht
    by_cases hd : extractDuration buffer1 (some b) = 0
    · simp only [extractAudioPeaks, if_pos hd] at hp
      exact absurd hp (List.not_mem_nil p)
    · rw [extract_points_eq _ _ _ hd] at hp
      obtain ⟨i, hi, rfl⟩ := List.mem_map.mp hp
      rw [extractPoint_time] at ht
      exact getPeak_beyond_end b _ _ hwf ht

/-- Witness for C10: two lookups agreeing below index 3 give the same
scan, and a window past a 2-second buffer's end yields 0. -/
theorem getPeak_safety_witness :
    peakScan demoLookupA 3 10 1 5 0 0 = peakScan demoLookupB 3 10 1 5 0 0 ∧
    getPeak demoBufWf 3 1 = 0 :=
  ⟨getPeak_safety.1 demoLookupA demoLookupB 3 10 1 5 0 0 (fun j hj => by
      simp only [demoLookupA, demoLookupB, if_pos hj]),
   getPeak_safety.2.1 demoBufWf 3 1
     ⟨by with_unfolding_all decide, by with_unfolding_all decide⟩
     (by with_unfolding_all decide)⟩

/-- C2: on a tick with all three transports attached, the leader's
transport is never modified; when Linked and the leader is playing, each
follower is set exactly to the leader's position when their distance
exceeds 0.15 s and keeps its position (and state) otherwise; when
Unlinked the tick changes nothing. -/
theorem syncLoop_correct (s : MediaState) (v1 v2 a1 : Transport)
    (h1 : s.videoOriginal = some v1) (h2 : s.videoMuted = some v2)
    (h3 : s.audioIsolated = some a1) :
    (syncLoop s).videoOriginal = s.videoOriginal ∧
    (s.isSynced = true → v1.paused = false →
      (syncLoop s).videoMuted
        = some (if 15/100 < |v2.currentTime - v1.currentTime|
                then v2.seekTo v1.currentTime else v2) ∧
      (syncLoop s).audioIsolated
        = some (if 15/100 < |a1.currentTime - v1.currentTime|
                then a1.seekTo v1.currentTime else a1)) ∧
    (s.isSynced = false → syncLoop s = s) := by
  refine ⟨?_, fun hsync hpause => ?_, fun hsync => ?_⟩
  · simp only [syncLoop, h1, h2, h3]
    split <;> first | rfl | exact h1
  · simp [syncLoop, h1, h2, h3, hsync, hpause]
  · simp [syncLoop, h1, h2, h3, hsync]

/-- Witness for C2: a concrete Linked, playing state — the drifted
follower (distance 1 > 0.15) is snapped to the leader, the in-tolerance
follower (distance 0.1) is untouched, the leader is untouched. -/
theorem syncLoop_correct_witness :
    (syncLoop demoTick).videoOriginal = demoTick.videoOriginal ∧
    (syncLoop demoTick).videoMuted = some { currentTime := 0, paused := false } ∧
    (syncLoop demoTick).audioIsolated = some { currentTime := 1/10, paused := false } := by
  have h := syncLoop_correct demoTick _ _ _ rfl rfl rfl
  have h2 := h.2.1 rfl rfl
  exact ⟨h.1, h2.1.trans (by with_unfolding_all decide),
    h2.2.trans (by with_unfolding_all decide)⟩

/-- C3 counterexample: in the reachable state `demoFollowersPlaying`
(unlink, then toggle the follower pair) the muted video is playing, so
the claim requires globalPlayPause to pause all three; instead the
handler — which tests only the leader's `isPlaying1` flag — starts the
original video playing. -/
theorem handleGlobalPlayPause_cx :
    demoFollowersPlaying.videoMuted = some { currentTime := 0, paused := false } ∧
    demoFollowersPlaying.videoOriginal = some { currentTime := 0, paused := true } ∧
    (handleGlobalPlayPause demoFollowersPlaying).videoOriginal
      = some { currentTime := 0, paused := false } := by
  with_unfolding_all decide

/-- C3 (amended): with all three transports attached, globalPlayPause
pauses all three exactly when the controller's `isPlaying1` flag (the
original video's playing flag) is set; otherwise it plays all three,
first seeking the two followers to the leader's position when Linked and
leaving positions alone when Unlinked. -/
theorem handleGlobalPlayPause_correct (s : MediaState) (v1 v2 a1 : Transport)
    (h1 : s.videoOriginal = some v1) (h2 : s.videoMuted = some v2)
    (h3 : s.audioIsolated = some a1) :
    (s.isPlaying1 = true →
      handleGlobalPlayPause s
        = { s with videoOriginal := some v1.pause, videoMuted := some v2.pause,
                   audioIsolated := some a1.pause,
                   isPlaying1 := false, isPlaying2 := false }) ∧
    (s.isPlaying1 = false → s.isSynced = true →
      handleGlobalPlayPause s
        = { s with videoOriginal := some v1.play,
                   videoMuted := some ((v2.seekTo v1.currentTime).play),
                   audioIsolated := some ((a1.seekTo v1.currentTime).play),
                   isPlaying1 := true, isPlaying2 := true }) ∧
    (s.isPlaying1 = false → s.isSynced = false →
      handleGlobalPlayPause s
        = { s with videoOriginal := some v1.play, videoMuted := some v2.play,
                   audioIsolated := some a1.play,
                   isPlaying1 := true, isPlaying2 := true }) := by
  refine ⟨fun hp => ?_, fun hp hs => ?_, fun hp hs => ?_⟩
  · simp [handleGlobalPlayPause, h1, h2, h3, hp]
  · simp [handleGlobalPlayPause, h1, h2, h3, hp, hs]
  · simp [handleGlobalPlayPause, h1, h2, h3, hp, hs]

/-- Witness for C3's amended theorem at the reachable state
`demoFollowersPlaying` (flag clear, Unlinked): all three transports end
up playing with positions unchanged. -/
theorem handleGlobalPlayPause_correct_witness :
    handleGlobalPlayPause demoFollowersPlaying
      = { videoOriginal := some { currentTime := 0, paused := false },
          videoMuted := some { currentTime := 0, paused := false },
          audioIsolated := some { currentTime := 0, paused := false },
          isSynced := false, isPlaying1 := true, isPlaying2 := true } := by
  have h := (handleGlobalPlayPause_correct demoFollowersPlaying
    { currentTime := 0, paused := true } { currentTime := 0, paused := false }
    { currentTime := 0, paused := false }
    (by with_unfolding_all decide) (by with_unfolding_all decide)
    (by with_unfolding_all decide)).2.2
    (by with_unfolding_all decide) (by with_unfolding_all decide)
  exact h.trans (by with_unfolding_all decide)

/-- C4 counterexample: (i) Linked with the leader paused at 0 and the
followers drifted to 10, toggling the leader starts the muted video at
position 10 — it is not seeked to the toggled transport's position 0
before playing, as the claim requires; (ii) Unlinked, toggling the muted
video also flips the isolated audio from paused to playing, though the
claim requires the other transports' state to remain unchanged. -/
theorem handleToggle_cx :
    (handleToggle1 demoDrifted).videoMuted = some { currentTime := 10, paused := false } ∧
    ¬ (10:ℚ) = 0 ∧
    demoUnlinked.isSynced = false ∧
    demoUnlinked.audioIsolated = some { currentTime := 7, paused := true } ∧
    (handleToggle2 demoUnlinked).audioIsolated
      = some { currentTime := 7, paused := false } := by
  with_unfolding_all decide

/-- C4 (amended): toggleTransport of the original video plays it if
paused and pauses it if playing; when Linked, the same action (play or
pause, with no seek) is fanned out to the attached followers, whose
positions are unchanged; when Unlinked the followers are untouched.
toggleTransport of the muted video always toggles the muted video and
the isolated audio together (even when Unlinked); when Linked the action
also fans out to the original video, position unchanged; when Unlinked
the original video is untouched.  No toggle modifies any transport's
position. -/
theorem toggleTransport_correct (s : MediaState) :
    (∀ v1 : Transport, s.videoOriginal = some v1 →
      (handleToggle1 s).videoOriginal = some (if v1.paused then v1.play else v1.pause) ∧
      (s.isSynced = true →
        (handleToggle1 s).videoMuted
          = (if v1.paused then playOpt s.videoMuted else pauseOpt s.videoMuted) ∧
        (handleToggle1 s).audioIsolated
          = (if v1.paused then playOpt s.audioIsolated else pauseOpt s.audioIsolated) ∧
        (handleToggle1 s).videoMuted.map Transport.currentTime
          = s.videoMuted.map Transport.currentTime ∧
        (handleToggle1 s).audioIsolated.map Transport.currentTime
          = s.audioIsolated.map Transport.currentTime) ∧
      (s.isSynced = false →
        (handleToggle1 s).videoMuted = s.videoMuted ∧
        (handleToggle1 s).audioIsolated = s.audioIsolated)) ∧
    (∀ v2 a1 : Transport, s.videoMuted = some v2 → s.audioIsolated = some a1 →
      (handleToggle2 s).videoMuted = some (if v2.paused then v2.play else v2.pause) ∧
      (handleToggle2 s).audioIsolated = some (if v2.paused then a1.play else a1.pause) ∧
      (s.isSynced = true →
        (handleToggle2 s).videoOriginal
          = (if v2.paused then playOpt s.videoOriginal else pauseOpt s.videoOriginal) ∧
        (handleToggle2 s).videoOriginal.map Transport.currentTime
          = s.videoOriginal.map Transport.currentTime) ∧
      (s.isSynced = false → (handleToggle2 s).videoOriginal = s.videoOriginal)) := by
  have hplay : ∀ o : Option Transport,
      (playOpt o).map Transport.currentTime = o.map Transport.currentTime := by
    intro o; rcases o with _ | t <;> rfl
  have hpause : ∀ o : Option Transport,
      (pauseOpt o).map Transport.currentTime = o.map Transport.currentTime := by
    intro o; rcases o with _ | t <;> rfl
  constructor
  · intro v1 h1
    rcases hv : v1.paused <;> rcases hsy : s.isSynced <;>
      refine ⟨?_, fun hs => ?_, fun hs => ?_⟩ <;>
      simp_all [handleToggle1, hplay, hpause]
  · intro v2 a1 h2 h3
    rcases hv : v2.paused <;> rcases hsy : s.isSynced <;>
      refine ⟨?_, ?_, fun hs => ?_, fun hs => ?_⟩ <;>
      simp_all [handleToggle2, hplay, hpause]

/-- Witness for C4's amended theorem: Linked toggle of the paused leader
plays it and plays the follower without moving it off position 10;
Unlinked toggle of the follower pair leaves the original video alone. -/
theorem toggleTransport_correct_witness :
    (handleToggle1 demoDrifted).videoOriginal = some { currentTime := 0, paused := false } ∧
    (handleToggle1 demoDrifted).videoMuted.map Transport.currentTime = some (10:ℚ) ∧
    (handleToggle2 demoUnlinked).videoOriginal = demoUnlinked.videoOriginal := by
  have ht1 := (toggleTransport_correct demoDrifted).1
    { currentTime := 0, paused := true } (by with_unfolding_all decide)
  have ht2 := (toggleTransport_correct demoUnlinked).2
    { currentTime := 5, paused := true } { currentTime := 7, paused := true }
    (by with_unfolding_all decide) (by with_unfolding_all decide)
  refine ⟨ht1.1.trans (by with_unfolding_all decide), ?_,
    ht2.2.2.2 (by with_unfolding_all decide)⟩
  have := (ht1.2.1 (by with_unfolding_all decide)).2.2.1
  exact this.trans (by with_unfolding_all decide)

/-- C9 counterexample: with the leader transport unattached (a transport
required by seek), seek is not a no-op — it still moves the attached
followers from position 5 to position 2. -/
theorem handleSeek_unattached_cx :
    demoLeaderless.videoOriginal = none ∧
    demoLeaderless.videoMuted = some { currentTime := 5, paused := true } ∧
    (handleSeek 2 demoLeaderless).videoMuted = some { currentTime := 2, paused := true } ∧
    ¬ (2:ℚ) = 5 := by
  with_unfolding_all decide

/-- C9 (amended): each handler guards only the transports its own code
dereferences directly: globalPlayPause is a no-op unless all three are
attached; toggleTransport of the original video is a no-op when the
original video is unattached (and its Linked fan-out silently skips any
missing follower); toggleTransport of the muted video is a no-op when
the muted video or isolated audio is unattached; seek skips each
unattached transport individually — the leader is seeked only if
attached and the followers only when both are attached.  All handlers
are total: no exception propagates. -/
theorem unattached_commands (s : MediaState) (time : ℚ) :
    (s.videoOriginal = none ∨ s.videoMuted = none ∨ s.audioIsolated = none →
      handleGlobalPlayPause s = s) ∧
    (s.videoOriginal = none → handleToggle1 s = s) ∧
    (s.videoMuted = none ∨ s.audioIsolated = none → handleToggle2 s = s) ∧
    (s.videoOriginal = none → (handleSeek time s).videoOriginal = none) ∧
    (s.videoMuted = none ∨ s.audioIsolated = none →
      (handleSeek time s).videoMuted = s.videoMuted ∧
      (handleSeek time s).audioIsolated = s.audioIsolated) := by
  obtain ⟨o1, o2, o3, sy, p1, p2⟩ := s
  refine ⟨fun h => ?_, fun h => ?_, fun h => ?_, fun h => ?_, fun h => ?_⟩
  · rcases h with h | h | h
    · subst h; rcases o2 with _ | v2 <;> rcases o3 with _ | a1 <;> rfl
    · subst h; rcases o1 with _ | v1 <;> rcases o3 with _ | a1 <;> rfl
    · subst h; rcases o1 with _ | v1 <;> rcases o2 with _ | v2 <;> rfl
  · subst h
    rfl
  · rcases h with h | h
    · subst h; rcases o3 with _ | a1 <;> rfl
    · subst h; rcases o2 with _ | v2 <;> rfl
  · subst h
    rcases o2 with _ | v2 <;> rcases o3 with _ | a1 <;>
      rcases hsy : sy <;> simp [handleSeek, hsy]
  · rcases h with h | h
    · subst h
      rcases o1 with _ | v1 <;> rcases o3 with _ | a1 <;>
        rcases hsy : sy <;> simp [handleSeek, hsy]
    · subst h
      rcases o1 with _ | v1 <;> rcases o2 with _ | v2 <;>
        rcases hsy : sy <;> simp [handleSeek, hsy]

/-- Witness for C9's amended theorem at the leaderless state: the
toggles and globalPlayPause are no-ops when their transports are
missing, and a seek leaves the unattached leader unattached. -/
theorem unattached_commands_witness :
    handleGlobalPlayPause demoLeaderless = demoLeaderless ∧
    handleToggle1 demoLeaderless = demoLeaderless ∧
    (handleSeek 2 demoLeaderless).videoOriginal = none :=
  ⟨(unattached_commands demoLeaderless 2).1 (Or.inl rfl),
   (unattached_commands demoLeaderless 2).2.1 rfl,
   (unattached_commands demoLeaderless 2).2.2.2.1 rfl⟩

end SnitchAudio
